import Mathlib

/-!
Shallow embedding of `src/diskviewer/views.py` (YandexDiskViewer).

The remote provider and the transport layer are modelled as an oracle
`World` answering each HTTP GET (url, query parameters) with either a
response (status, parsed JSON object body, raw content bytes) or `none`
(the `requests` library raised, e.g. a connection error).  Every function
of the module is translated into a Lean function over a `World`; each
function additionally returns the list of GET requests it issued, so
that claims about "how many remote calls happen" are statable.  Python
exceptions that the module can raise (calling `requests.get` on a `None`
url, string operations on non-string JSON values) are modelled with
`Except PyError`; nothing in the module catches exceptions, so they
propagate.  Django's process-wide cache is modelled as an explicit
association list with expiry timestamps and an explicit clock.
-/

namespace DiskViewer

/-- JSON values as carried in provider response bodies. -/
inductive Json where
| null : Json
| str (s : String) : Json
| num (n : Int) : Json
| arr (xs : List Json) : Json
| obj (fields : List (String × Json)) : Json
deriving Repr

/-- Raw response bytes (`response.content`). -/
abbrev Bytes := List Nat

/-- Query parameters of a GET request. -/
abbrev Params := List (String × String)

/-- One HTTP GET request as issued by `requests.get(url, params=...)`. -/
structure Request where
  url : String
  params : Params
deriving Repr, DecidableEq

/-- An HTTP response: status code, parsed JSON object (`response.json()`)
and raw body (`response.content`). -/
structure HttpResponse where
  status : Nat
  body : List (String × Json)
  content : Bytes

/-- The remote provider plus transport: each GET either yields a response
or raises inside `requests` (`none`). -/
structure World where
  get : String → Params → Option HttpResponse

/-- Python exceptions the module can raise (it catches none of them). -/
inductive PyError where
| invalidUrl : PyError
| connectionError : PyError
| typeError : PyError
deriving Repr, DecidableEq

/-- Base URL of the provider API (`YANDEX_DISK_API_BASE_URL`). -/
def YANDEX_DISK_API_BASE_URL : String :=
  "https://cloud-api.yandex.net/v1/disk/public/resources"

/-- `requests.get(url, params=params)`: returns the response together with
the single-request trace, or raises if the transport failed. -/
def http_get (w : World) (url : String) (params : Params) :
    Except PyError (HttpResponse × List Request) :=
  match w.get url params with
  | some r => .ok (r, [⟨url, params⟩])
  | none => .error .connectionError

/-- Python `d.get(key, default)` on a JSON value: only dictionaries have
`.get`; calling it on any other value raises. -/
def Json.dictGetD : Json → String → Json → Except PyError Json
| .obj fields, key, d => .ok ((fields.lookup key).getD d)
| _, _, _ => .error .typeError

/-- `response.json().get('_embedded', {}).get('items', [])` (line 38). -/
def embeddedItems (body : List (String × Json)) : Except PyError Json :=
  Json.dictGetD ((body.lookup "_embedded").getD (Json.obj [])) "items" (Json.arr [])

/-- The listing request issued by `get_file_list` (line 35-36). -/
def listRequest (public_key : String) : Request :=
  ⟨YANDEX_DISK_API_BASE_URL, [("public_key", public_key)]⟩

/-- The metadata request issued by `get_file_metadata` (line 94-95). -/
def metaRequest (public_key path : String) : Request :=
  ⟨YANDEX_DISK_API_BASE_URL, [("public_key", public_key), ("path", path)]⟩

/-- The download-location request issued by `download_file` (line 54-55). -/
def locRequest (public_key path : String) : Request :=
  ⟨YANDEX_DISK_API_BASE_URL ++ "/download", [("public_key", public_key), ("path", path)]⟩

/-- Django's cache, with an explicit clock: key ↦ (value, expiry time). -/
structure Cache where
  entries : List (String × Json × Nat)

/-- The empty cache. -/
def Cache.empty : Cache := ⟨[]⟩

/-- `cache.get(key)`: the stored value if present and not yet expired. -/
def Cache.get (c : Cache) (now : Nat) (key : String) : Option Json :=
  match c.entries.lookup key with
  | some (v, expiry) => if now < expiry then some v else none
  | none => none

/-- `cache.set(key, value, timeout)`: unconditional overwrite, expiry
`timeout` seconds from now. -/
def Cache.set (c : Cache) (now : Nat) (key : String) (v : Json) (timeout : Nat) : Cache :=
  ⟨(key, v, now + timeout) :: c.entries.filter (fun e => e.1 != key)⟩

/-- `get_file_list` (lines 19-43): consult the cache under
`"file_list_" ++ public_key`; on a miss GET the listing endpoint; on 200
extract the items, cache them for 600 seconds and return them; on any
other status return `None` without touching the cache. -/
def get_file_list (w : World) (c : Cache) (now : Nat) (public_key : String) :
    Except PyError (Option Json × Cache × List Request) := do
  let cache_key := "file_list_" ++ public_key
  match c.get now cache_key with
  | some cached_files => .ok (some cached_files, c, [])
  | none => do
    let (response, reqs) ← http_get w YANDEX_DISK_API_BASE_URL [("public_key", public_key)]
    if response.status = 200 then do
      let files ← embeddedItems response.body
      .ok (some files, c.set now cache_key files 600, reqs)
    else
      .ok (none, c, reqs)

/-- The Remote Metadata Client's `listFiles` contract body: the uncached
remote part of `get_file_list` (lines 35-43). -/
def listFiles (w : World) (public_key : String) :
    Except PyError (Option Json × List Request) := do
  let (response, reqs) ← http_get w YANDEX_DISK_API_BASE_URL [("public_key", public_key)]
  if response.status = 200 then do
    let files ← embeddedItems response.body
    .ok (some files, reqs)
  else
    .ok (none, reqs)

/-- `get_file_metadata` (lines 86-98): GET with both parameters; on 200
return the whole JSON body, else `None`. -/
def get_file_metadata (w : World) (public_key path : String) :
    Except PyError (Option (List (String × Json)) × List Request) := do
  let (response, reqs) ←
    http_get w YANDEX_DISK_API_BASE_URL [("public_key", public_key), ("path", path)]
  if response.status = 200 then
    .ok (some response.body, reqs)
  else
    .ok (none, reqs)

/-- `download_file` (lines 46-60): GET the `/download` sub-resource; on
200 read `href` from the body and GET it, returning the raw content of
that second response (its status is never inspected); on non-200 return
`None`.  When `href` is absent or not a string, the code still calls
`requests.get` on it, which raises (no guarding branch exists). -/
def download_file (w : World) (public_key path : String) :
    Except PyError (Option Bytes × List Request) := do
  let (response, reqs) ←
    http_get w (YANDEX_DISK_API_BASE_URL ++ "/download")
      [("public_key", public_key), ("path", path)]
  if response.status = 200 then
    match response.body.lookup "href" with
    | some (.str download_url) => do
      let (file_response, reqs2) ← http_get w download_url []
      .ok (some file_response.content, reqs ++ reqs2)
    | _ => .error .invalidUrl
  else
    .ok (none, reqs)

/-- `file_metadata.get('name', 'downloaded_file')` (lines 116, 152). -/
def metadataName (file_metadata : List (String × Json)) : Json :=
  (file_metadata.lookup "name").getD (Json.str "downloaded_file")

/-- A Python string operation applied to a JSON value: raises `TypeError`
unless the value is a string. -/
def asString : Json → Except PyError String
| .str s => .ok s
| _ => .error .typeError

/-- Python `f"...{value}"` rendering.  Faithful for strings (the only
case the handlers produce from well-formed metadata); other JSON values
are abstracted to a constant tag. -/
def Json.display : Json → String
| .str s => s
| .null => "None"
| .num n => toString n
| .arr _ => "[...]"
| .obj _ => "\x7b...\x7d"

/-- One uppercase hexadecimal digit. -/
def hexUpper (n : Nat) : Char :=
  if n < 10 then Char.ofNat (48 + n) else Char.ofNat (55 + n)

/-- Percent-encoding of one byte by `urllib.parse.quote`: kept verbatim
if unreserved (ALPHA / DIGIT / `-._~`) or in the default safe set (`/`),
else `%XX` with uppercase hex. -/
def quoteByte (b : Nat) : String :=
  if (65 ≤ b && b ≤ 90) || (97 ≤ b && b ≤ 122) || (48 ≤ b && b ≤ 57) ||
      b == 45 || b == 46 || b == 95 || b == 126 || b == 47 then
    String.singleton (Char.ofNat b)
  else
    "%" ++ String.singleton (hexUpper (b / 16)) ++ String.singleton (hexUpper (b % 16))

/-- UTF-8 encoding of one Unicode scalar value, as a byte list. -/
def utf8EncodeCodepoint (n : Nat) : List Nat :=
  if n < 0x80 then [n]
  else if n < 0x800 then [0xC0 + n / 0x40, 0x80 + n % 0x40]
  else if n < 0x10000 then
    [0xE0 + n / 0x1000, 0x80 + (n / 0x40) % 0x40, 0x80 + n % 0x40]
  else
    [0xF0 + n / 0x40000, 0x80 + (n / 0x1000) % 0x40, 0x80 + (n / 0x40) % 0x40, 0x80 + n % 0x40]

/-- Python `s.encode('utf-8')`: the byte sequence of a string. -/
def utf8Bytes (s : String) : List Nat :=
  s.data.flatMap (fun c => utf8EncodeCodepoint c.toNat)

/-- `urllib.parse.quote(s)`: UTF-8 encode, then percent-escape every
byte outside the safe set. -/
def quote (s : String) : String :=
  String.join ((utf8Bytes s).map quoteByte)

/-- The fixed content type the single-file handler attaches (line 125). -/
def SPREADSHEET_CONTENT_TYPE : String :=
  "application/vnd.openxmlformats-officedocument.spreadsheetml.sheet"

/-- What a Django view returns: a binary file response, a zip response
(modelled by its ordered entry list rather than serialized zip bytes),
or a `JsonResponse` error. -/
inductive ViewResponse where
| file (content : Bytes) (content_type : String) (content_disposition : String) : ViewResponse
| zipArchive (entries : List (String × Bytes)) (content_type : String)
    (content_disposition : String) : ViewResponse
| jsonError (message : String) (status : Nat) : ViewResponse
deriving Repr, DecidableEq

/-- `download` (lines 101-129): metadata lookup (404 on failure), file
name with `'downloaded_file'` fallback, percent-encoded into the
`Content-Disposition` header, then the content fetch (404 on failure).
`quote` is applied to the name before `download_file` is called, as in
the source; a non-string name raises there. -/
def download (w : World) (public_key file_path : String) :
    Except PyError (ViewResponse × List Request) := do
  let (file_metadata?, reqs1) ← get_file_metadata w public_key file_path
  match file_metadata? with
  | none => .ok (.jsonError "Файл не найден" 404, reqs1)
  | some file_metadata => do
    let file_name := metadataName file_metadata
    let encoded_file_name := quote (← asString file_name)
    let (file_content?, reqs2) ← download_file w public_key file_path
    match file_content? with
    | some file_content =>
      .ok (.file file_content SPREADSHEET_CONTENT_TYPE
        ("attachment; filename=\"" ++ encoded_file_name ++ "\""), reqs1 ++ reqs2)
    | none => .ok (.jsonError "Файл не найден" 404, reqs1 ++ reqs2)

/-- The per-path loop of `download_multiple` (lines 147-157): for each
path in order, metadata lookup (abort with 404 naming the path on
failure), then content fetch (abort with 404 naming the file on
failure), then append the zip entry `(name, bytes)`.  `zip_file.writestr`
raises on a non-string name.  An abort returns the `JsonResponse` and
discards every entry buffered so far. -/
def download_paths (w : World) (public_key : String) :
    List String → Except PyError ((ViewResponse ⊕ List (String × Bytes)) × List Request)
| [] => .ok (.inr [], [])
| file_path :: rest => do
  let (file_metadata?, reqs1) ← get_file_metadata w public_key file_path
  match file_metadata? with
  | none => .ok (.inl (.jsonError ("Файл не найден: " ++ file_path) 404), reqs1)
  | some file_metadata => do
    let file_name := metadataName file_metadata
    let (file_content?, reqs2) ← download_file w public_key file_path
    match file_content? with
    | some file_content => do
      let entry_name ← asString file_name
      let (res, reqs3) ← download_paths w public_key rest
      match res with
      | .inl err => .ok (.inl err, reqs1 ++ reqs2 ++ reqs3)
      | .inr entries => .ok (.inr ((entry_name, file_content) :: entries), reqs1 ++ reqs2 ++ reqs3)
    | none =>
      .ok (.inl (.jsonError ("Не удалось скачать файл: " ++ file_name.display) 404),
        reqs1 ++ reqs2)

/-- `download_multiple` (lines 132-162): empty path list is rejected with
HTTP 400 before any remote call; otherwise the per-path loop either
aborts with its `JsonResponse` or yields the zip archive of all entries
in input order. -/
def download_multiple (w : World) (public_key : String) (file_paths : List String) :
    Except PyError (ViewResponse × List Request) := do
  if file_paths.isEmpty then
    .ok (.jsonError "Не выбраны файлы" 400, [])
  else do
    let (res, reqs) ← download_paths w public_key file_paths
    match res with
    | .inl err => .ok (err, reqs)
    | .inr entries =>
      .ok (.zipArchive entries "application/zip"
        "attachment; filename=\"downloaded_files.zip\"", reqs)

/-! ### Concrete worlds used by the witnesses -/

/-- A provider where every call succeeds: the listing/metadata endpoint
answers 200 with both a `name` and an `_embedded.items` field, the
`/download` endpoint answers 200 with an `href`, and the content GET
yields the bytes `[7, 8]`. -/
def wOk : World := ⟨fun u _ =>
  if u = YANDEX_DISK_API_BASE_URL then
    some ⟨200, [("name", Json.str "a b.txt"),
      ("_embedded", Json.obj [("items", Json.arr [Json.str "f1"])])], []⟩
  else if u = YANDEX_DISK_API_BASE_URL ++ "/download" then
    some ⟨200, [("href", Json.str "http://files.example/x")], []⟩
  else
    some ⟨200, [], [7, 8]⟩⟩

/-- A provider answering every request with HTTP 404. -/
def wFail : World := ⟨fun _ _ => some ⟨404, [], []⟩⟩

/-- A provider answering every request with HTTP 200 and an empty JSON
object body (in particular: no `href` on `/download`, no `name`). -/
def wBare : World := ⟨fun _ _ => some ⟨200, [], [9]⟩⟩

/-- A provider that resolves a download location but whose content host
is unreachable (the secondary GET raises). -/
def wSecondaryDown : World := ⟨fun u _ =>
  if u = YANDEX_DISK_API_BASE_URL ++ "/download" then
    some ⟨200, [("href", Json.str "http://files.example/x")], []⟩
  else if u = YANDEX_DISK_API_BASE_URL then
    some ⟨200, [], []⟩
  else
    none⟩

/-- A provider whose metadata answers 200 without a `name` field but
still resolves a download location and serves content bytes `[9]`. -/
def wNoName : World := ⟨fun u _ =>
  if u = YANDEX_DISK_API_BASE_URL then
    some ⟨200, [], []⟩
  else if u = YANDEX_DISK_API_BASE_URL ++ "/download" then
    some ⟨200, [("href", Json.str "http://files.example/x")], []⟩
  else
    some ⟨200, [], [9]⟩⟩

/-- A provider whose metadata lookups succeed but whose `/download`
location resolution answers 404. -/
def wLocFail : World := ⟨fun u _ =>
  if u = YANDEX_DISK_API_BASE_URL then
    some ⟨200, [("name", Json.str "a.txt")], []⟩
  else
    some ⟨404, [], []⟩⟩

/-- A provider where metadata lookups fail for the path `"bad"` only;
everything else succeeds as in `wOk`. -/
def wBatch : World := ⟨fun u ps =>
  if u = YANDEX_DISK_API_BASE_URL then
    if ps = [("public_key", "K"), ("path", "bad")] then
      some ⟨404, [], []⟩
    else
      some ⟨200, [("name", Json.str "a.txt")], []⟩
  else if u = YANDEX_DISK_API_BASE_URL ++ "/download" then
    some ⟨200, [("href", Json.str "http://files.example/x")], []⟩
  else
    some ⟨200, [], [7]⟩⟩

/-! ### Reduction lemmas for the `Except` monad -/

@[simp] theorem ok_bind {ε α β : Type} (a : α) (f : α → Except ε β) :
    ((Except.ok a : Except ε α) >>= f) = f a := rfl

@[simp] theorem error_bind {ε α β : Type} (e : ε) (f : α → Except ε β) :
    ((Except.error e : Except ε α) >>= f) = Except.error e := rfl

/-! ### Claim theorems -/

/-- C7: a request to the multi-file endpoint with an empty `file_paths`
list is rejected with the `InvalidRequest` JSON error and HTTP status
400, and the request trace is empty: no metadata lookup and no content
fetch is issued before the rejection. -/
theorem empty_file_paths_rejected (w : World) (public_key : String) :
    download_multiple w public_key [] =
      .ok (.jsonError "Не выбраны файлы" 400, []) := rfl

/-- C10: when the `/download` location-resolution response has HTTP
status 200 but its body carries no `href` field, `download_file` has no
guarded error branch: the success branch passes the absent (`None`) url
straight to the secondary GET, which raises.  The operation is thus not
total on such inputs; in the model it ends in the `invalidUrl`
exception rather than in any `Option` result. -/
theorem download_file_missing_href_crash
    (w : World) (public_key path : String) (r : HttpResponse)
    (hloc : w.get (locRequest public_key path).url (locRequest public_key path).params = some r)
    (h200 : r.status = 200)
    (hhref : r.body.lookup "href" = none) :
    download_file w public_key path = .error .invalidUrl := by
  simp only [locRequest] at hloc
  simp [download_file, http_get, hloc, h200, hhref]

/-- Witness for C10: in the world `wBare` the `/download` endpoint
answers 200 with an empty JSON object, and `download_file` raises. -/
theorem download_file_missing_href_crash_witness :
    download_file wBare "K" "p" = Except.error PyError.invalidUrl :=
  download_file_missing_href_crash wBare "K" "p" ⟨200, [], [9]⟩ rfl rfl rfl

/-- C3: `download_file` fails without bytes when location resolution
answers non-200 (it returns `None`, which both handlers turn into a 404
error), and when the secondary GET against the resolved location itself
fails (the transport raises), the failure propagates as an exception —
an error, never successful bytes. -/
theorem download_file_error_paths (w : World) (public_key path : String) :
    (∀ r, w.get (locRequest public_key path).url (locRequest public_key path).params = some r →
      r.status ≠ 200 →
      download_file w public_key path = .ok (none, [locRequest public_key path])) ∧
    (∀ r u, w.get (locRequest public_key path).url (locRequest public_key path).params = some r →
      r.status = 200 → r.body.lookup "href" = some (.str u) →
      w.get u [] = none →
      download_file w public_key path = .error .connectionError) := by
  constructor
  · intro r hloc hst
    simp only [locRequest] at hloc
    simp [download_file, http_get, hloc, hst, locRequest]
  · intro r u hloc hst hhref hu
    simp only [locRequest] at hloc
    simp [download_file, http_get, hloc, hst, hhref, hu]

/-- Witness for C3: against `wFail` location resolution answers 404 and
no bytes are produced; against `wSecondaryDown` a location is resolved
but the content host is unreachable and the failure surfaces as an
exception. -/
theorem download_file_error_paths_witness :
    download_file wFail "K" "p" = Except.ok (none, [locRequest "K" "p"]) ∧
    download_file wSecondaryDown "K" "p" = Except.error PyError.connectionError :=
  ⟨(download_file_error_paths wFail "K" "p").1 ⟨404, [], []⟩ rfl (by decide),
   (download_file_error_paths wSecondaryDown "K" "p").2
     ⟨200, [("href", Json.str "http://files.example/x")], []⟩
     "http://files.example/x" rfl rfl rfl rfl⟩

/-- C6: `listFiles` issues exactly one GET, against the listing endpoint
with the public key as its sole query parameter; on HTTP 200 it returns
the `_embedded.items` value (the empty array when `_embedded` or
`items` is absent) and on any non-200 status it returns `none`, with no
further request in the trace (no retry). -/
theorem listFiles_contract (w : World) (public_key : String) :
    (∀ r files,
      w.get (listRequest public_key).url (listRequest public_key).params = some r →
      r.status = 200 → embeddedItems r.body = .ok files →
      listFiles w public_key = .ok (some files, [listRequest public_key])) ∧
    (∀ r, w.get (listRequest public_key).url (listRequest public_key).params = some r →
      r.status = 200 → r.body.lookup "_embedded" = none →
      listFiles w public_key = .ok (some (Json.arr []), [listRequest public_key])) ∧
    (∀ r fields,
      w.get (listRequest public_key).url (listRequest public_key).params = some r →
      r.status = 200 → r.body.lookup "_embedded" = some (Json.obj fields) →
      fields.lookup "items" = none →
      listFiles w public_key = .ok (some (Json.arr []), [listRequest public_key])) ∧
    (∀ r, w.get (listRequest public_key).url (listRequest public_key).params = some r →
      r.status ≠ 200 →
      listFiles w public_key = .ok (none, [listRequest public_key])) := by
  refine ⟨?_, ?_, ?_, ?_⟩
  · intro r files hr hst hitems
    simp only [listRequest] at hr
    simp [listFiles, http_get, hr, hst, hitems, listRequest]
  · intro r hr hst hemb
    simp only [listRequest] at hr
    simp [listFiles, http_get, hr, hst, embeddedItems, hemb, Json.dictGetD, listRequest]
  · intro r fields hr hst hemb hitems
    simp only [listRequest] at hr
    simp [listFiles, http_get, hr, hst, embeddedItems, hemb, hitems, Json.dictGetD, listRequest]
  · intro r hr hst
    simp only [listRequest] at hr
    simp [listFiles, http_get, hr, hst, listRequest]

/-- Witness for C6: `wOk` serves an items array, `wBare` serves a 200
body with no `_embedded`, `wFail` answers 404. -/
theorem listFiles_contract_witness :
    listFiles wOk "K" = Except.ok (some (Json.arr [Json.str "f1"]), [listRequest "K"]) ∧
    listFiles wBare "K" = Except.ok (some (Json.arr []), [listRequest "K"]) ∧
    listFiles wFail "K" = Except.ok (none, [listRequest "K"]) :=
  ⟨(listFiles_contract wOk "K").1
      ⟨200, [("name", Json.str "a b.txt"),
        ("_embedded", Json.obj [("items", Json.arr [Json.str "f1"])])], []⟩
      (Json.arr [Json.str "f1"]) rfl rfl rfl,
   (listFiles_contract wBare "K").2.1 ⟨200, [], [9]⟩ rfl rfl rfl,
   (listFiles_contract wFail "K").2.2.2 ⟨404, [], []⟩ rfl (by decide)⟩

/-- If a cache read misses at time `t0`, it still misses at any later
time: entries only expire, they never reappear. -/
theorem cacheGet_none_mono (c : Cache) (t0 t1 : Nat) (key : String)
    (ht : t0 ≤ t1) (h : c.get t0 key = none) : c.get t1 key = none := by
  unfold Cache.get at h ⊢
  cases hl : c.entries.lookup key with
  | none => rfl
  | some ve =>
    rw [hl] at h
    obtain ⟨v, e⟩ := ve
    by_cases he : t1 < e
    · have h0 : t0 < e := lt_of_le_of_lt ht he
      simp [h0] at h
    · simp [he]

/-- C5: when the remote listing call answers non-200, `get_file_list`
returns `None` and leaves the cache exactly as it was; a subsequent
listing for the same key (at any later time) therefore misses again and
issues a fresh remote call instead of reading a cached failure. -/
theorem failed_listing_not_cached (w : World) (public_key : String)
    (c : Cache) (t0 t1 : Nat) (r : HttpResponse)
    (hmiss : c.get t0 ("file_list_" ++ public_key) = none)
    (ht : t0 ≤ t1)
    (hr : w.get (listRequest public_key).url (listRequest public_key).params = some r)
    (hst : r.status ≠ 200) :
    get_file_list w c t0 public_key = .ok (none, c, [listRequest public_key]) ∧
    get_file_list w c t1 public_key = .ok (none, c, [listRequest public_key]) := by
  have hmiss1 : c.get t1 ("file_list_" ++ public_key) = none :=
    cacheGet_none_mono c t0 t1 _ ht hmiss
  simp only [listRequest] at hr
  constructor
  · simp [get_file_list, hmiss, http_get, hr, hst, listRequest]
  · simp [get_file_list, hmiss1, http_get, hr, hst, listRequest]

/-- Witness for C5: against `wFail`, listing at time 0 and again at time
5 from the empty cache issues one remote call each and never populates
the cache. -/
theorem failed_listing_not_cached_witness :
    get_file_list wFail Cache.empty 0 "K" =
      Except.ok (none, Cache.empty, [listRequest "K"]) ∧
    get_file_list wFail Cache.empty 5 "K" =
      Except.ok (none, Cache.empty, [listRequest "K"]) :=
  failed_listing_not_cached wFail "K" Cache.empty 0 5 ⟨404, [], []⟩ rfl
    (by decide) rfl (by decide)

/-- C4: from an empty cache, a first listing request issues exactly one
remote call, whose successful result is written to the cache (expiring
600 seconds later) before being returned; a second request within the
TTL window is answered from the cache with an empty request trace — no
second remote call. -/
theorem list_cache_hit_single_remote_call (w : World) (public_key : String)
    (t0 t1 : Nat) (r : HttpResponse) (files : Json)
    (hr : w.get (listRequest public_key).url (listRequest public_key).params = some r)
    (hst : r.status = 200)
    (hitems : embeddedItems r.body = .ok files)
    (ht : t1 < t0 + 600) :
    get_file_list w Cache.empty t0 public_key =
      .ok (some files, Cache.empty.set t0 ("file_list_" ++ public_key) files 600,
        [listRequest public_key]) ∧
    get_file_list w (Cache.empty.set t0 ("file_list_" ++ public_key) files 600) t1 public_key =
      .ok (some files, Cache.empty.set t0 ("file_list_" ++ public_key) files 600, []) := by
  simp only [listRequest] at hr
  constructor
  · simp [get_file_list, Cache.get, Cache.empty, http_get, hr, hst, hitems, listRequest]
  · simp [get_file_list, Cache.get, Cache.set, Cache.empty, List.lookup, ht]

/-- Witness for C4: against `wOk`, listing at time 0 and again at time
599 from the empty cache: one remote call, then a pure cache hit. -/
theorem list_cache_hit_single_remote_call_witness :
    get_file_list wOk Cache.empty 0 "K" =
      Except.ok (some (Json.arr [Json.str "f1"]),
        Cache.empty.set 0 ("file_list_" ++ "K") (Json.arr [Json.str "f1"]) 600,
        [listRequest "K"]) ∧
    get_file_list wOk (Cache.empty.set 0 ("file_list_" ++ "K") (Json.arr [Json.str "f1"]) 600)
        599 "K" =
      Except.ok (some (Json.arr [Json.str "f1"]),
        Cache.empty.set 0 ("file_list_" ++ "K") (Json.arr [Json.str "f1"]) 600, []) :=
  list_cache_hit_single_remote_call wOk "K" 0 599
    ⟨200, [("name", Json.str "a b.txt"),
      ("_embedded", Json.obj [("items", Json.arr [Json.str "f1"])])], []⟩
    (Json.arr [Json.str "f1"]) rfl rfl rfl (by decide)

/-- The fallback file name percent-encodes to itself. -/
theorem quote_downloaded_file : quote "downloaded_file" = "downloaded_file" := rfl

/-- C8: when metadata lookup and content fetch both succeed, the
single-file endpoint returns exactly the bytes the Content Fetcher
(`download_file`) returns, with the `Content-Disposition` attachment
filename being the percent-encoding (`quote`) of the metadata's display
name; when the metadata lookup fails, or the content fetch fails, it
returns the structured JSON error with HTTP status 404. -/
theorem download_single_file_contract (w : World) (public_key file_path : String) :
    (∀ rm rd rc name u,
      w.get (metaRequest public_key file_path).url
        (metaRequest public_key file_path).params = some rm →
      rm.status = 200 →
      metadataName rm.body = .str name →
      w.get (locRequest public_key file_path).url
        (locRequest public_key file_path).params = some rd →
      rd.status = 200 →
      rd.body.lookup "href" = some (.str u) →
      w.get u [] = some rc →
      download w public_key file_path =
        .ok (.file rc.content SPREADSHEET_CONTENT_TYPE
          ("attachment; filename=\"" ++ quote name ++ "\""),
          [metaRequest public_key file_path, locRequest public_key file_path, ⟨u, []⟩]) ∧
      download_file w public_key file_path =
        .ok (some rc.content, [locRequest public_key file_path, ⟨u, []⟩])) ∧
    (∀ rm,
      w.get (metaRequest public_key file_path).url
        (metaRequest public_key file_path).params = some rm →
      rm.status ≠ 200 →
      download w public_key file_path =
        .ok (.jsonError "Файл не найден" 404, [metaRequest public_key file_path])) ∧
    (∀ rm rd name,
      w.get (metaRequest public_key file_path).url
        (metaRequest public_key file_path).params = some rm →
      rm.status = 200 →
      metadataName rm.body = .str name →
      w.get (locRequest public_key file_path).url
        (locRequest public_key file_path).params = some rd →
      rd.status ≠ 200 →
      download w public_key file_path =
        .ok (.jsonError "Файл не найден" 404,
          [metaRequest public_key file_path, locRequest public_key file_path])) := by
  refine ⟨?_, ?_, ?_⟩
  · intro rm rd rc name u hm hm200 hname hd hd200 hhref hu
    simp only [metaRequest, locRequest] at hm hd
    constructor
    · simp [download, get_file_metadata, download_file, http_get, hm, hm200, hname,
        hd, hd200, hhref, hu, asString, metaRequest, locRequest]
    · simp [download_file, http_get, hd, hd200, hhref, hu, locRequest]
  · intro rm hm hm200
    simp only [metaRequest] at hm
    simp [download, get_file_metadata, http_get, hm, hm200, metaRequest]
  · intro rm rd name hm hm200 hname hd hd200
    simp only [metaRequest, locRequest] at hm hd
    simp [download, get_file_metadata, download_file, http_get, hm, hm200, hname,
      hd, hd200, asString, metaRequest, locRequest]

/-- Witness for C8: against `wOk` the name `"a b.txt"` is served with
the space percent-encoded as `%20` around the fetched bytes `[7, 8]`;
against `wFail` the metadata lookup fails with the 404 error; against
`wLocFail` metadata succeeds but the fetch fails with the 404 error. -/
theorem download_single_file_contract_witness :
    (download wOk "K" "p" =
      Except.ok (.file [7, 8] SPREADSHEET_CONTENT_TYPE
        "attachment; filename=\"a%20b.txt\"",
        [metaRequest "K" "p", locRequest "K" "p", ⟨"http://files.example/x", []⟩]) ∧
     download_file wOk "K" "p" =
      Except.ok (some [7, 8], [locRequest "K" "p", ⟨"http://files.example/x", []⟩])) ∧
    download wFail "K" "p" =
      Except.ok (.jsonError "Файл не найден" 404, [metaRequest "K" "p"]) ∧
    download wLocFail "K" "p" =
      Except.ok (.jsonError "Файл не найден" 404,
        [metaRequest "K" "p", locRequest "K" "p"]) := by
  refine ⟨?_, ?_, ?_⟩
  · have h := (download_single_file_contract wOk "K" "p").1
      ⟨200, [("name", Json.str "a b.txt"),
        ("_embedded", Json.obj [("items", Json.arr [Json.str "f1"])])], []⟩
      ⟨200, [("href", Json.str "http://files.example/x")], []⟩
      ⟨200, [], [7, 8]⟩ "a b.txt" "http://files.example/x"
      rfl rfl rfl rfl rfl rfl rfl
    simpa [show quote "a b.txt" = "a%20b.txt" from rfl] using h
  · exact (download_single_file_contract wFail "K" "p").2.1 ⟨404, [], []⟩ rfl (by decide)
  · exact (download_single_file_contract wLocFail "K" "p").2.2
      ⟨200, [("name", Json.str "a.txt")], []⟩ ⟨404, [], []⟩ "a.txt"
      rfl rfl rfl rfl (by decide)

/-- C9: when the metadata lookup succeeds but its record has no `name`
field, the fixed fallback name `"downloaded_file"` is used and the
operation still succeeds: the single-file endpoint serves the bytes
under that name, and the per-path archive loop appends an entry named
`"downloaded_file"` with the fetched bytes. -/
theorem fallback_name_downloaded_file (w : World) (public_key file_path : String) :
    (∀ rm rd rc u,
      w.get (metaRequest public_key file_path).url
        (metaRequest public_key file_path).params = some rm →
      rm.status = 200 →
      rm.body.lookup "name" = none →
      w.get (locRequest public_key file_path).url
        (locRequest public_key file_path).params = some rd →
      rd.status = 200 →
      rd.body.lookup "href" = some (.str u) →
      w.get u [] = some rc →
      download w public_key file_path =
        .ok (.file rc.content SPREADSHEET_CONTENT_TYPE
          "attachment; filename=\"downloaded_file\"",
          [metaRequest public_key file_path, locRequest public_key file_path, ⟨u, []⟩])) ∧
    (∀ rm rd rc u rest entries t,
      w.get (metaRequest public_key file_path).url
        (metaRequest public_key file_path).params = some rm →
      rm.status = 200 →
      rm.body.lookup "name" = none →
      w.get (locRequest public_key file_path).url
        (locRequest public_key file_path).params = some rd →
      rd.status = 200 →
      rd.body.lookup "href" = some (.str u) →
      w.get u [] = some rc →
      download_paths w public_key rest = .ok (.inr entries, t) →
      download_paths w public_key (file_path :: rest) =
        .ok (.inr (("downloaded_file", rc.content) :: entries),
          ([metaRequest public_key file_path] ++
            [locRequest public_key file_path, ⟨u, []⟩]) ++ t)) := by
  constructor
  · intro rm rd rc u hm hm200 hname hd hd200 hhref hu
    simp only [metaRequest, locRequest] at hm hd
    simp [download, get_file_metadata, download_file, http_get, hm, hm200,
      metadataName, hname, hd, hd200, hhref, hu, asString, quote_downloaded_file,
      metaRequest, locRequest]
  · intro rm rd rc u rest entries t hm hm200 hname hd hd200 hhref hu hrest
    simp only [metaRequest, locRequest] at hm hd
    simp [download_paths, get_file_metadata, download_file, http_get, hm, hm200,
      metadataName, hname, hd, hd200, hhref, hu, asString, hrest,
      metaRequest, locRequest]

/-- Witness for C9: against `wNoName` (metadata 200 with no `name`) the
single-file endpoint serves `[9]` as `"downloaded_file"`, and the
archive loop over the single path produces the entry
`("downloaded_file", [9])`. -/
theorem fallback_name_downloaded_file_witness :
    download wNoName "K" "p" =
      Except.ok (.file [9] SPREADSHEET_CONTENT_TYPE
        "attachment; filename=\"downloaded_file\"",
        [metaRequest "K" "p", locRequest "K" "p", ⟨"http://files.example/x", []⟩]) ∧
    download_paths wNoName "K" ["p"] =
      Except.ok (.inr [("downloaded_file", [9])],
        [metaRequest "K" "p", locRequest "K" "p", ⟨"http://files.example/x", []⟩]) := by
  constructor
  · exact (fallback_name_downloaded_file wNoName "K" "p").1
      ⟨200, [], []⟩ ⟨200, [("href", Json.str "http://files.example/x")], []⟩
      ⟨200, [], [9]⟩ "http://files.example/x" rfl rfl rfl rfl rfl rfl rfl
  · have h := (fallback_name_downloaded_file wNoName "K" "p").2
      ⟨200, [], []⟩ ⟨200, [("href", Json.str "http://files.example/x")], []⟩
      ⟨200, [], [9]⟩ "http://files.example/x" [] [] []
      rfl rfl rfl rfl rfl rfl rfl rfl
    simpa using h

/-- Helper: when every path's metadata lookup, name extraction and
content fetch succeed, the per-path loop returns the zip entry list
`(name, bytes)` in input order. -/
theorem download_paths_all_ok (w : World) (public_key : String)
    (paths : List String)
    (mdOf : String → List (String × Json)) (nameOf : String → String)
    (bytesOf : String → Bytes)
    (hmd : ∀ p ∈ paths, ∃ t, get_file_metadata w public_key p = .ok (some (mdOf p), t))
    (hname : ∀ p ∈ paths, asString (metadataName (mdOf p)) = .ok (nameOf p))
    (hdl : ∀ p ∈ paths, ∃ t, download_file w public_key p = .ok (some (bytesOf p), t)) :
    ∃ t, download_paths w public_key paths =
      .ok (.inr (paths.map (fun p => (nameOf p, bytesOf p))), t) := by
  induction paths with
  | nil => exact ⟨[], rfl⟩
  | cons p ps ih =>
    obtain ⟨t1, h1⟩ := hmd p (List.mem_cons_self p ps)
    obtain ⟨t2, h2⟩ := hdl p (List.mem_cons_self p ps)
    obtain ⟨t3, h3⟩ := ih
      (fun q hq => hmd q (List.mem_cons_of_mem p hq))
      (fun q hq => hname q (List.mem_cons_of_mem p hq))
      (fun q hq => hdl q (List.mem_cons_of_mem p hq))
    refine ⟨t1 ++ (t2 ++ t3), ?_⟩
    simp [download_paths, h1, h2, h3, hname p (List.mem_cons_self p ps)]

/-- Helper: if every path before `bad` succeeds completely and the
metadata lookup for `bad` fails, the per-path loop aborts with the 404
`JsonResponse` naming `bad`, discarding all buffered entries. -/
theorem download_paths_abort (w : World) (public_key : String)
    (pre post : List String) (bad : String)
    (mdOf : String → List (String × Json)) (nameOf : String → String)
    (bytesOf : String → Bytes)
    (hmd : ∀ p ∈ pre, ∃ t, get_file_metadata w public_key p = .ok (some (mdOf p), t))
    (hname : ∀ p ∈ pre, asString (metadataName (mdOf p)) = .ok (nameOf p))
    (hdl : ∀ p ∈ pre, ∃ t, download_file w public_key p = .ok (some (bytesOf p), t))
    (hbad : ∃ t, get_file_metadata w public_key bad = .ok (none, t)) :
    ∃ t, download_paths w public_key (pre ++ bad :: post) =
      .ok (.inl (.jsonError ("Файл не найден: " ++ bad) 404), t) := by
  induction pre with
  | nil =>
    obtain ⟨t, h⟩ := hbad
    exact ⟨t, by simp [download_paths, h]⟩
  | cons p ps ih =>
    obtain ⟨t1, h1⟩ := hmd p (List.mem_cons_self p ps)
    obtain ⟨t2, h2⟩ := hdl p (List.mem_cons_self p ps)
    obtain ⟨t3, h3⟩ := ih
      (fun q hq => hmd q (List.mem_cons_of_mem p hq))
      (fun q hq => hname q (List.mem_cons_of_mem p hq))
      (fun q hq => hdl q (List.mem_cons_of_mem p hq))
    refine ⟨t1 ++ (t2 ++ t3), ?_⟩
    simp [download_paths, h1, h2, h3, hname p (List.mem_cons_self p ps)]

/-- C1: when metadata lookup and content fetch succeed for every path of
a non-empty batch, the multi-file endpoint returns the zip archive with
exactly one entry per supplied path, in the supplied order, the i-th
entry named by the i-th path's metadata display name and containing the
bytes fetched for that path; a duplicated path contributes two entries,
with no deduplication. -/
theorem buildArchive_entries_in_order (w : World) (public_key : String)
    (paths : List String)
    (mdOf : String → List (String × Json)) (nameOf : String → String)
    (bytesOf : String → Bytes)
    (hmd : ∀ p ∈ paths, ∃ t, get_file_metadata w public_key p = .ok (some (mdOf p), t))
    (hname : ∀ p ∈ paths, asString (metadataName (mdOf p)) = .ok (nameOf p))
    (hdl : ∀ p ∈ paths, ∃ t, download_file w public_key p = .ok (some (bytesOf p), t))
    (hne : paths ≠ []) :
    ∃ t, download_multiple w public_key paths =
      .ok (.zipArchive (paths.map (fun p => (nameOf p, bytesOf p)))
        "application/zip" "attachment; filename=\"downloaded_files.zip\"", t) := by
  obtain ⟨t, h⟩ := download_paths_all_ok w public_key paths mdOf nameOf bytesOf hmd hname hdl
  refine ⟨t, ?_⟩
  cases paths with
  | nil => exact absurd rfl hne
  | cons p ps => simp [download_multiple, h]

/-- Witness for C1: against `wBatch` the duplicated batch `["p", "p"]`
yields a two-entry archive, both entries named `"a.txt"` with bytes
`[7]`. -/
theorem buildArchive_entries_in_order_witness :
    ∃ t, download_multiple wBatch "K" ["p", "p"] =
      Except.ok (.zipArchive [("a.txt", [7]), ("a.txt", [7])]
        "application/zip" "attachment; filename=\"downloaded_files.zip\"", t) := by
  have h := buildArchive_entries_in_order wBatch "K" ["p", "p"]
    (fun _ => [("name", Json.str "a.txt")]) (fun _ => "a.txt") (fun _ => [7])
    (fun q hq => by
      have : q = "p" := by simpa using hq
      subst this; exact ⟨_, rfl⟩)
    (fun q hq => rfl)
    (fun q hq => by
      have : q = "p" := by simpa using hq
      subst this; exact ⟨_, rfl⟩)
    (by simp)
  simpa using h

/-- C2: when the metadata lookup fails for the k-th path of a batch
whose earlier paths all succeeded, the multi-file endpoint returns the
404 `NotFound` JSON error naming that path, and no archive: the entries
already buffered for the earlier paths appear in no response. -/
theorem buildArchive_abort_on_metadata_failure (w : World) (public_key : String)
    (pre post : List String) (bad : String)
    (mdOf : String → List (String × Json)) (nameOf : String → String)
    (bytesOf : String → Bytes)
    (hmd : ∀ p ∈ pre, ∃ t, get_file_metadata w public_key p = .ok (some (mdOf p), t))
    (hname : ∀ p ∈ pre, asString (metadataName (mdOf p)) = .ok (nameOf p))
    (hdl : ∀ p ∈ pre, ∃ t, download_file w public_key p = .ok (some (bytesOf p), t))
    (hbad : ∃ t, get_file_metadata w public_key bad = .ok (none, t)) :
    ∃ t, download_multiple w public_key (pre ++ bad :: post) =
      .ok (.jsonError ("Файл не найден: " ++ bad) 404, t) := by
  obtain ⟨t, h⟩ :=
    download_paths_abort w public_key pre post bad mdOf nameOf bytesOf hmd hname hdl hbad
  refine ⟨t, ?_⟩
  cases pre <;>
    simp only [List.nil_append, List.cons_append] at h <;>
    simp [download_multiple, h]

/-- Witness for C2: against `wBatch` the batch `["p", "bad", "q"]` — the
first path fully succeeds, the metadata lookup for `"bad"` answers 404 —
returns the JSON error naming `"bad"` and no archive. -/
theorem buildArchive_abort_on_metadata_failure_witness :
    ∃ t, download_multiple wBatch "K" ["p", "bad", "q"] =
      Except.ok (.jsonError "Файл не найден: bad" 404, t) := by
  have h := buildArchive_abort_on_metadata_failure wBatch "K" ["p"] ["q"] "bad"
    (fun _ => [("name", Json.str "a.txt")]) (fun _ => "a.txt") (fun _ => [7])
    (fun q hq => by
      have : q = "p" := by simpa using hq
      subst this; exact ⟨_, rfl⟩)
    (fun q hq => rfl)
    (fun q hq => by
      have : q = "p" := by simpa using hq
      subst this; exact ⟨_, rfl⟩)
    ⟨_, rfl⟩
  simpa using h

end DiskViewer
